import Mathlib

/-!
Verification of the KLU WASM wrapper (`src/wasm/cpp/klu_interface.cpp`,
class `UltraKLUSolver`) against its natural-language specification.

The wrapper orchestrates calls into the external SuiteSparse KLU library
(`klu_analyze`, `klu_factor`, `klu_solve`, `klu_condest`,
`klu_free_symbolic`, `klu_free_numeric`).  The library is a black box: each
wrapper operation below therefore takes the outcome the library produced on
that call as an explicit argument (an `Option` handle, a status code, an
output buffer, a measured duration).  Everything the wrapper itself does --
state flags, handle fields, length checks, buffer copies, which external
routines get called, and with what -- is translated directly from the C++.

Scalar matrix values (`double` in the source) are carried opaquely; no claim
computes with them, so they are represented by `Int` to keep every
definition executable and decidable.  Handles (`klu_symbolic*`,
`klu_numeric*`) are `Option` of a record carrying an identity tag (so that
release/leak of a particular handle is observable) plus, for the symbolic
handle, the `lnz` field the wrapper reads in `getStatistics`.

Each operation also returns the trace of external KLU calls it performed
(`KluCall` list), mirroring, in order, the library invocations in the
source.  This makes claims of the form "the values are never passed through
to the routine" and "releases the existing handle first" directly statable.
-/

set_option autoImplicit false

namespace AkingSPICE

/-- Model of `klu_symbolic*`: an identity tag plus the `lnz` field
(estimated factor nonzero count) that `getStatistics` reads.  The value of
`lnz` is produced by the external library. -/
structure KluSymbolic where
  id : Nat
  lnz : Int
deriving DecidableEq, Repr

/-- Model of `klu_numeric*`: an identity tag. -/
structure KluNumeric where
  id : Nat
deriving DecidableEq, Repr

/-- One external call into the KLU library, as performed by the wrapper. -/
inductive KluCall where
  /-- `klu_free_symbolic` on the handle with this tag. -/
  | freeSym (id : Nat)
  /-- `klu_free_numeric` on the handle with this tag. -/
  | freeNum (id : Nat)
  /-- `klu_analyze(n, Ap, Ai, ...)`. -/
  | analyzeCall (n : Int) (Ap Ai : List Int)
  /-- `klu_factor(Ap, Ai, values, symbolic, ...)` with these values. -/
  | factorCall (values : List Int)
  /-- `klu_solve(symbolic, numeric, n, 1, buf, ...)` with the contents of
  the buffer handed to it. -/
  | solveCall (buf : List Int)
  /-- `klu_condest(symbolic, numeric, ...)`. -/
  | condestCall
deriving DecidableEq, Repr

/-- Solver state: the private fields of class `UltraKLUSolver`.

`lastFactorTime_` and `lastSolveTime_` are `double` fields never
initialized by the constructor; they are modelled as `Option Nat`
(`none` = still indeterminate, durations as opaque tick counts).
The `klu_common common_` configuration block only carries tuning constants
passed to the library; no claim depends on it and it is not modelled. -/
structure UltraKLUSolver where
  symbolic : Option KluSymbolic
  numeric : Option KluNumeric
  n : Int
  Ap : List Int
  Ai : List Int
  isAnalyzed : Bool
  isFactorized : Bool
  lastFactorTime : Option Nat
  lastSolveTime : Option Nat
deriving DecidableEq, Repr

/-- The constructor `UltraKLUSolver()` : null handles, `n_ = 0`, empty
pattern vectors, both flags false, timing fields left uninitialized. -/
def UltraKLUSolver.init : UltraKLUSolver :=
  { symbolic := none
    numeric := none
    n := 0
    Ap := []
    Ai := []
    isAnalyzed := false
    isFactorized := false
    lastFactorTime := none
    lastSolveTime := none }

/-- Result of `analyzeStructure`: the updated solver, the returned `bool`,
and the external calls performed. -/
structure AnalyzeEffect where
  state : UltraKLUSolver
  returned : Bool
  calls : List KluCall
deriving DecidableEq, Repr

/-- `UltraKLUSolver::analyzeStructure(n, colPointers, rowIndices)`.

Source order: if `symbolic_` is non-null, `klu_free_symbolic` it (the
numeric handle is NOT touched); copy `n`, `colPointers`, `rowIndices` into
`n_`, `Ap_`, `Ai_`; call `klu_analyze`; set
`isAnalyzed_ = (symbolic_ != nullptr)` and `isFactorized_ = false`;
return `isAnalyzed_`.  The analysis duration is only printed, never stored.
`kluAnalyzeRes` is the handle the external `klu_analyze` returned
(`none` = null). -/
def UltraKLUSolver.analyzeStructure (s : UltraKLUSolver) (n : Int)
    (colPointers rowIndices : List Int) (kluAnalyzeRes : Option KluSymbolic) :
    AnalyzeEffect :=
  let freeCalls : List KluCall :=
    match s.symbolic with
    | some h => [KluCall.freeSym h.id]
    | none => []
  { state :=
      { s with
        symbolic := kluAnalyzeRes
        n := n
        Ap := colPointers
        Ai := rowIndices
        isAnalyzed := kluAnalyzeRes.isSome
        isFactorized := false }
    returned := kluAnalyzeRes.isSome
    calls := freeCalls ++ [KluCall.analyzeCall n colPointers rowIndices] }

/-- Result of `factorizeMatrix`. -/
structure FactorizeEffect where
  state : UltraKLUSolver
  returned : Bool
  calls : List KluCall
deriving DecidableEq, Repr

/-- `UltraKLUSolver::factorizeMatrix(values)`.

Source order: if `!isAnalyzed_`, return false immediately (nothing
touched); if `numeric_` is non-null, `klu_free_numeric` it; call
`klu_factor(Ap_, Ai_, values, symbolic_, ...)` -- note the source performs
no check of `values.size()` against `Ai_.size()` before this call; store
the measured duration in `lastFactorTime_`; set
`isFactorized_ = (numeric_ != nullptr)`; return `isFactorized_`.
`kluFactorRes` is the handle the external `klu_factor` returned. -/
def UltraKLUSolver.factorizeMatrix (s : UltraKLUSolver) (values : List Int)
    (kluFactorRes : Option KluNumeric) (dur : Nat) : FactorizeEffect :=
  if s.isAnalyzed = false then
    { state := s, returned := false, calls := [] }
  else
    let freeCalls : List KluCall :=
      match s.numeric with
      | some h => [KluCall.freeNum h.id]
      | none => []
    { state :=
        { s with
          numeric := kluFactorRes
          lastFactorTime := some dur
          isFactorized := kluFactorRes.isSome }
      returned := kluFactorRes.isSome
      calls := freeCalls ++ [KluCall.factorCall values] }

/-- The struct `SolveResult`.  In the source `SolveResult result;` leaves
the scalar members indeterminate until assigned: `success`, `iterations`
and `factorizationTime` are assigned on every path, `conditionNumber` and
`solveTime` only on some paths, hence `Option`. -/
structure SolveResult where
  success : Bool
  solution : List Int
  errorMessage : String
  iterations : Int
  conditionNumber : Option Int
  factorizationTime : Option Nat
  solveTime : Option Nat
deriving DecidableEq, Repr

/-- Source string at the `!isFactorized_` check in `solveSystem`
(Chinese: matrix not factorized, call factorizeMatrix() first). -/
def notFactorizedMsg : String := "矩陣未分解，請先調用 factorizeMatrix()"

/-- Source string at the `rhs.size() != n_` check in `solveSystem`
(Chinese: right-hand-side vector dimension mismatch). -/
def dimensionMismatchMsg : String := "右端向量維度不匹配"

/-- Source string on `klu_solve` status failure
(Chinese: KLU solve failed, matrix possibly singular). -/
def solveFailedMsg : String := "KLU 求解失敗 (可能矩陣奇異)"

/-- The two distinct buffers alive inside `solveSystem`: the caller-owned
`rhs` vector and the freshly copied `result.solution` vector
(`result.solution = rhs;` copy-constructs separate storage). -/
inductive Buf where
  | rhsBuf
  | solBuf
deriving DecidableEq, Repr

/-- Contents of the two buffers. -/
structure Mem where
  rhs : List Int
  sol : List Int
deriving DecidableEq, Repr

/-- Overwrite one buffer, as an in-place external write would. -/
def Mem.write (m : Mem) : Buf → List Int → Mem
  | Buf.rhsBuf, v => { m with rhs := v }
  | Buf.solBuf, v => { m with sol := v }

/-- The buffer the source hands to `klu_solve`: `result.solution.data()`,
i.e. the copy, not the caller buffer. -/
def kluSolveTarget : Buf := Buf.solBuf

/-- `computeResidualNorm(b, x)`: the source is a placeholder that ignores
both arguments and returns the constant `1e-12`. -/
def computeResidualNorm (_b _x : List Int) : Rat := 1 / 10 ^ 12

/-- Library-produced data for one `solveSystem` call: the status code
`klu_solve` returned, the contents it left in the buffer it was handed,
the measured duration, and the `klu_condest` estimate. -/
structure SolveOracle where
  status : Int
  out : List Int
  dur : Nat
  condest : Int
deriving DecidableEq, Repr

/-- Result of `solveSystem`: updated solver, the returned `SolveResult`,
the contents of the caller-owned `rhs` buffer at return, and the external
calls performed. -/
structure SolveEffect where
  state : UltraKLUSolver
  result : SolveResult
  rhsAfter : List Int
  calls : List KluCall
deriving DecidableEq, Repr

/-- `UltraKLUSolver::solveSystem(rhs)`.

Source order: default-construct `result`; assign `success = false`,
`iterations = 0`, `factorizationTime = lastFactorTime_`; if
`!isFactorized_`, set the not-factorized message and return (state
untouched); if `rhs.size() != n_`, set the dimension-mismatch message and
return (state untouched, `klu_solve` not invoked); otherwise copy
`result.solution = rhs` and hand `result.solution.data()` to `klu_solve`
(which overwrites that buffer in place); store the duration in
`lastSolveTime_` and in `result.solveTime`; `success = (status == 1)`; on
failure set the singular-matrix message and return; on success call
`klu_condest`, compute the (placeholder) residual norm -- compared against
`1e-10` only for a printed warning -- and set `iterations = 1`. -/
def UltraKLUSolver.solveSystem (s : UltraKLUSolver) (rhs : List Int)
    (orc : SolveOracle) : SolveEffect :=
  let result0 : SolveResult :=
    { success := false
      solution := []
      errorMessage := ""
      iterations := 0
      conditionNumber := none
      factorizationTime := s.lastFactorTime
      solveTime := none }
  if s.isFactorized = false then
    { state := s
      result := { result0 with errorMessage := notFactorizedMsg }
      rhsAfter := rhs
      calls := [] }
  else if (rhs.length : Int) ≠ s.n then
    { state := s
      result := { result0 with errorMessage := dimensionMismatchMsg }
      rhsAfter := rhs
      calls := [] }
  else
    let mem0 : Mem := { rhs := rhs, sol := rhs }
    let mem1 : Mem := mem0.write kluSolveTarget orc.out
    let s1 : UltraKLUSolver := { s with lastSolveTime := some orc.dur }
    let success := orc.status = 1
    if success then
      let _residual := computeResidualNorm mem1.rhs mem1.sol
      { state := s1
        result :=
          { result0 with
            success := true
            solution := mem1.sol
            conditionNumber := some orc.condest
            solveTime := some orc.dur
            iterations := 1 }
        rhsAfter := mem1.rhs
        calls := [KluCall.solveCall mem0.sol, KluCall.condestCall] }
    else
      { state := s1
        result :=
          { result0 with
            solution := mem1.sol
            errorMessage := solveFailedMsg
            solveTime := some orc.dur }
        rhsAfter := mem1.rhs
        calls := [KluCall.solveCall mem0.sol] }

/-- The struct `MatrixStats`. -/
structure MatrixStats where
  rows : Int
  cols : Int
  nnz : Int
  fillFactor : Rat
  isSymmetric : Bool
  conditionEstimate : Int
deriving DecidableEq, Repr

/-- `UltraKLUSolver::getStatistics()` (const: no state change).

Defaults are assigned first; if `symbolic_` is non-null,
`fillFactor = symbolic_->lnz / Ai_.size()`; if `numeric_` is non-null,
`conditionEstimate = klu_condest(...)` (external value `condestRes`). -/
def UltraKLUSolver.getStatistics (s : UltraKLUSolver) (condestRes : Int) :
    MatrixStats :=
  let base : MatrixStats :=
    { rows := s.n
      cols := s.n
      nnz := (s.Ai.length : Int)
      fillFactor := 0
      isSymmetric := false
      conditionEstimate := 0 }
  let withFill : MatrixStats :=
    match s.symbolic with
    | some h => { base with fillFactor := (h.lnz : Rat) / (s.Ai.length : Rat) }
    | none => base
  match s.numeric with
  | some _ => { withFill with conditionEstimate := condestRes }
  | none => withFill

/-- Result of `cleanup`. -/
structure CleanupEffect where
  state : UltraKLUSolver
  calls : List KluCall
deriving DecidableEq, Repr

/-- `UltraKLUSolver::cleanup()`: free and null `numeric_` then `symbolic_`
(each only if non-null), clear both flags.  `n_`, `Ap_`, `Ai_` and the
timing fields are left as they are. -/
def UltraKLUSolver.cleanup (s : UltraKLUSolver) : CleanupEffect :=
  let numCalls : List KluCall :=
    match s.numeric with
    | some h => [KluCall.freeNum h.id]
    | none => []
  let symCalls : List KluCall :=
    match s.symbolic with
    | some h => [KluCall.freeSym h.id]
    | none => []
  { state :=
      { s with
        numeric := none
        symbolic := none
        isAnalyzed := false
        isFactorized := false }
    calls := numCalls ++ symCalls }

/-- One public operation together with the data the external library
produced during it, for reasoning about reachable states. -/
inductive Op where
  | analyze (n : Int) (colPointers rowIndices : List Int)
      (res : Option KluSymbolic)
  | factorize (values : List Int) (res : Option KluNumeric) (dur : Nat)
  | solve (rhs : List Int) (orc : SolveOracle)
  | stats (condestRes : Int)
  | doCleanup
deriving DecidableEq, Repr

/-- State transition of one public operation. -/
def stepOp (s : UltraKLUSolver) : Op → UltraKLUSolver
  | Op.analyze n cp ri res => (s.analyzeStructure n cp ri res).state
  | Op.factorize v res dur => (s.factorizeMatrix v res dur).state
  | Op.solve rhs orc => (s.solveSystem rhs orc).state
  | Op.stats _ => s
  | Op.doCleanup => s.cleanup.state

/-- The solver state after running a sequence of public operations on a
freshly constructed solver. -/
def runOps (ops : List Op) : UltraKLUSolver :=
  ops.foldl stepOp UltraKLUSolver.init

/-! ### Concrete states used by the claim theorems and witnesses -/

/-- A solver that has successfully analyzed the 1x1 identity-like pattern
`colPointers = [0, 1]`, `rowIndices = [0]` (one structural nonzero). -/
def analyzedState : UltraKLUSolver :=
  (UltraKLUSolver.init.analyzeStructure 1 [0, 1] [0] (some ⟨0, 1⟩)).state

/-- `analyzedState` after a successful numeric factorization producing the
numeric handle tagged 7. -/
def factorizedState : UltraKLUSolver :=
  (analyzedState.factorizeMatrix [5] (some ⟨7⟩) 2).state

/-! ### Claim theorems -/

/-- C1: `factorizeMatrix` performs no validation of the values length
against the stored pattern.  In state `Analyzed` with one structural
nonzero, a values vector of length 3 is passed straight through to
`klu_factor` (the trace contains the `factorCall` with the mismatched
values) and the call returns the external routine status -- here `true` --
instead of failing cleanly without delegation, contradicting the claim. -/
theorem factorize_skips_length_validation :
    analyzedState.isAnalyzed = true ∧
    ([7, 8, 9] : List Int).length ≠ analyzedState.Ai.length ∧
    KluCall.factorCall [7, 8, 9]
      ∈ (analyzedState.factorizeMatrix [7, 8, 9] (some ⟨1⟩) 2).calls ∧
    (analyzedState.factorizeMatrix [7, 8, 9] (some ⟨1⟩) 2).returned = true := by
  decide

/-- C2: `analyzeStructure` does not release the existing numeric handle.
Starting from a factorized solver holding numeric handle 7, a second
`analyzeStructure` never emits `freeNum 7` and leaves `numeric_` still
pointing at handle 7 alongside the newly acquired symbolic handle, so the
superseded numeric artifact survives the call, contradicting the claim. -/
theorem analyze_keeps_stale_numeric :
    factorizedState.numeric = some ⟨7⟩ ∧
    KluCall.freeNum 7
      ∉ (factorizedState.analyzeStructure 1 [0, 1] [0] (some ⟨1, 1⟩)).calls ∧
    (factorizedState.analyzeStructure 1 [0, 1] [0] (some ⟨1, 1⟩)).state.numeric
      = some ⟨7⟩ ∧
    (factorizedState.analyzeStructure 1 [0, 1] [0] (some ⟨1, 1⟩)).state.symbolic
      = some ⟨1, 1⟩ := by
  decide

/-- C3: in any non-factorized state, `solveSystem` returns a failure
outcome carrying the not-factorized message and leaves the solver state
exactly as it was, for every rhs and every library behavior. -/
theorem solveSystem_not_factorized (s : UltraKLUSolver) (rhs : List Int)
    (orc : SolveOracle) (h : s.isFactorized = false) :
    (s.solveSystem rhs orc).result.success = false ∧
    (s.solveSystem rhs orc).result.errorMessage = notFactorizedMsg ∧
    (s.solveSystem rhs orc).state = s := by
  simp [UltraKLUSolver.solveSystem, h]

/-- Witness for C3 at the fresh solver with `rhs = [1, 2]`. -/
theorem solveSystem_not_factorized_witness :
    UltraKLUSolver.init.isFactorized = false ∧
    ((UltraKLUSolver.init.solveSystem [1, 2] ⟨1, [0, 0], 0, 0⟩).result.success
        = false ∧
     (UltraKLUSolver.init.solveSystem [1, 2] ⟨1, [0, 0], 0, 0⟩).result.errorMessage
        = notFactorizedMsg ∧
     (UltraKLUSolver.init.solveSystem [1, 2] ⟨1, [0, 0], 0, 0⟩).state
        = UltraKLUSolver.init) :=
  ⟨rfl, solveSystem_not_factorized UltraKLUSolver.init [1, 2] ⟨1, [0, 0], 0, 0⟩ rfl⟩

/-- C4: in an analyzed (or factorized) state, a failing numeric
factorization (`klu_factor` returned null, modelled by `none`) makes
`factorizeMatrix` return false, keeps `isAnalyzed_` set with the symbolic
handle intact, clears `isFactorized_`, and a subsequent `solveSystem`
reports the not-factorized failure. -/
theorem factorize_failure_keeps_analyzed (s : UltraKLUSolver)
    (values : List Int) (dur : Nat) (h : s.isAnalyzed = true) :
    (s.factorizeMatrix values none dur).returned = false ∧
    (s.factorizeMatrix values none dur).state.isAnalyzed = true ∧
    (s.factorizeMatrix values none dur).state.isFactorized = false ∧
    (s.factorizeMatrix values none dur).state.symbolic = s.symbolic ∧
    ∀ (rhs : List Int) (orc : SolveOracle),
      ((s.factorizeMatrix values none dur).state.solveSystem rhs orc).result.success
          = false ∧
      ((s.factorizeMatrix values none dur).state.solveSystem rhs orc).result.errorMessage
          = notFactorizedMsg := by
  simp [UltraKLUSolver.factorizeMatrix, UltraKLUSolver.solveSystem, h]

/-- Witness for C4 at `analyzedState` with `values = [9]`. -/
theorem factorize_failure_keeps_analyzed_witness :
    analyzedState.isAnalyzed = true ∧
    ((analyzedState.factorizeMatrix [9] none 2).returned = false ∧
     (analyzedState.factorizeMatrix [9] none 2).state.isAnalyzed = true ∧
     (analyzedState.factorizeMatrix [9] none 2).state.isFactorized = false ∧
     (analyzedState.factorizeMatrix [9] none 2).state.symbolic
        = analyzedState.symbolic ∧
     ∀ (rhs : List Int) (orc : SolveOracle),
       ((analyzedState.factorizeMatrix [9] none 2).state.solveSystem rhs orc).result.success
           = false ∧
       ((analyzedState.factorizeMatrix [9] none 2).state.solveSystem rhs orc).result.errorMessage
           = notFactorizedMsg) :=
  ⟨rfl, factorize_failure_keeps_analyzed analyzedState [9] 2 rfl⟩

/-- C5: before any successful analysis (`isAnalyzed_` false),
`factorizeMatrix` returns false, changes no state field, and performs no
external call, for every values vector and every library behavior. -/
theorem factorize_before_analyze_unchanged (s : UltraKLUSolver)
    (values : List Int) (res : Option KluNumeric) (dur : Nat)
    (h : s.isAnalyzed = false) :
    s.factorizeMatrix values res dur
      = { state := s, returned := false, calls := [] } := by
  simp [UltraKLUSolver.factorizeMatrix, h]

/-- Witness for C5 at the fresh solver. -/
theorem factorize_before_analyze_unchanged_witness :
    UltraKLUSolver.init.isAnalyzed = false ∧
    UltraKLUSolver.init.factorizeMatrix [1, 2] (some ⟨3⟩) 4
      = { state := UltraKLUSolver.init, returned := false, calls := [] } :=
  ⟨rfl, factorize_before_analyze_unchanged UltraKLUSolver.init [1, 2] (some ⟨3⟩) 4 rfl⟩

/-- C6: in a factorized state, a rhs whose length differs from `n_` makes
`solveSystem` return a failure outcome with the dimension-mismatch
message, perform no external call (in particular `klu_solve` is not
invoked), and leave the state exactly as it was. -/
theorem solveSystem_dimension_mismatch (s : UltraKLUSolver)
    (rhs : List Int) (orc : SolveOracle) (h1 : s.isFactorized = true)
    (h2 : (rhs.length : Int) ≠ s.n) :
    (s.solveSystem rhs orc).result.success = false ∧
    (s.solveSystem rhs orc).result.errorMessage = dimensionMismatchMsg ∧
    (s.solveSystem rhs orc).calls = [] ∧
    (s.solveSystem rhs orc).state = s := by
  simp [UltraKLUSolver.solveSystem, h1, h2]

/-- Witness for C6 at `factorizedState` (n = 1) with a length-3 rhs. -/
theorem solveSystem_dimension_mismatch_witness :
    (factorizedState.isFactorized = true ∧
     (([1, 2, 3] : List Int).length : Int) ≠ factorizedState.n) ∧
    ((factorizedState.solveSystem [1, 2, 3] ⟨1, [0], 0, 0⟩).result.success
        = false ∧
     (factorizedState.solveSystem [1, 2, 3] ⟨1, [0], 0, 0⟩).result.errorMessage
        = dimensionMismatchMsg ∧
     (factorizedState.solveSystem [1, 2, 3] ⟨1, [0], 0, 0⟩).calls = [] ∧
     (factorizedState.solveSystem [1, 2, 3] ⟨1, [0], 0, 0⟩).state
        = factorizedState) :=
  ⟨⟨by decide, by decide⟩,
   solveSystem_dimension_mismatch factorizedState [1, 2, 3] ⟨1, [0], 0, 0⟩
     (by decide) (by decide)⟩

/-- C8 counterexample: `iterations` is not 1 on every call.  On the fresh
solver the not-factorized failure path returns `iterations = 0`. -/
theorem solveSystem_iterations_not_always_one :
    (UltraKLUSolver.init.solveSystem [1] ⟨1, [1], 0, 0⟩).result.iterations ≠ 1 := by
  decide

/-- C8 amended: `iterations` is 1 exactly on successful outcomes; every
failure outcome (not factorized, dimension mismatch, solve failure)
carries `iterations = 0`. -/
theorem solveSystem_iterations_one_iff_success (s : UltraKLUSolver)
    (rhs : List Int) (orc : SolveOracle) :
    (s.solveSystem rhs orc).result.iterations
      = if (s.solveSystem rhs orc).result.success then 1 else 0 := by
  simp only [UltraKLUSolver.solveSystem]
  split
  · rfl
  · split
    · rfl
    · split <;> rfl

/-- C9: `solveSystem` never writes the caller-owned rhs buffer: on every
path the rhs contents at return equal the contents at entry (the external
solve writes only the copied solution buffer). -/
theorem solveSystem_preserves_rhs (s : UltraKLUSolver) (rhs : List Int)
    (orc : SolveOracle) :
    (s.solveSystem rhs orc).rhsAfter = rhs := by
  simp only [UltraKLUSolver.solveSystem, kluSolveTarget, Mem.write]
  split
  · rfl
  · split
    · rfl
    · split <;> rfl

/-- The inductive invariant for C10: the analyzed flag implies a live
symbolic handle, and the factorized flag implies the analyzed flag. -/
def SolverInv (s : UltraKLUSolver) : Prop :=
  (s.isAnalyzed = true → s.symbolic.isSome = true) ∧
  (s.isFactorized = true → s.isAnalyzed = true)

theorem solverInv_init : SolverInv UltraKLUSolver.init := by
  constructor <;> intro h <;> simp [UltraKLUSolver.init] at h

theorem solverInv_step (s : UltraKLUSolver) (op : Op) (h : SolverInv s) :
    SolverInv (stepOp s op) := by
  obtain ⟨h1, h2⟩ := h
  cases op with
  | analyze n cp ri res =>
      simp [stepOp, UltraKLUSolver.analyzeStructure, SolverInv]
  | factorize v res dur =>
      by_cases ha : s.isAnalyzed = false
      · simpa [stepOp, UltraKLUSolver.factorizeMatrix, ha] using ⟨h1, h2⟩
      · have ha2 : s.isAnalyzed = true := by simpa using ha
        refine ⟨?_, ?_⟩ <;>
          simp [stepOp, UltraKLUSolver.factorizeMatrix, ha, ha2, h1 ha2]
  | solve rhs orc =>
      simp only [stepOp, UltraKLUSolver.solveSystem]
      split
      · exact ⟨h1, h2⟩
      · split
        · exact ⟨h1, h2⟩
        · split <;> exact ⟨h1, h2⟩
  | stats c => exact ⟨h1, h2⟩
  | doCleanup =>
      simp [stepOp, UltraKLUSolver.cleanup, SolverInv]

theorem solverInv_foldl (ops : List Op) (s : UltraKLUSolver)
    (h : SolverInv s) : SolverInv (ops.foldl stepOp s) := by
  induction ops generalizing s with
  | nil => exact h
  | cons op rest ih => exact ih (stepOp s op) (solverInv_step s op h)

/-- C10: in every state reachable from a fresh solver by public
operations, a set factorized flag implies a set analyzed flag and a live
symbolic handle. -/
theorem reachable_factorized_implies_analyzed (ops : List Op)
    (h : (runOps ops).isFactorized = true) :
    (runOps ops).isAnalyzed = true ∧ (runOps ops).symbolic.isSome = true := by
  have hinv : SolverInv (runOps ops) :=
    solverInv_foldl ops UltraKLUSolver.init solverInv_init
  exact ⟨hinv.2 h, hinv.1 (hinv.2 h)⟩

/-- Witness for C10 on the sequence analyze-then-factorize, which reaches
a factorized state. -/
theorem reachable_factorized_implies_analyzed_witness :
    (runOps [Op.analyze 1 [0, 1] [0] (some ⟨0, 1⟩),
             Op.factorize [5] (some ⟨7⟩) 2]).isFactorized = true ∧
    ((runOps [Op.analyze 1 [0, 1] [0] (some ⟨0, 1⟩),
              Op.factorize [5] (some ⟨7⟩) 2]).isAnalyzed = true ∧
     (runOps [Op.analyze 1 [0, 1] [0] (some ⟨0, 1⟩),
              Op.factorize [5] (some ⟨7⟩) 2]).symbolic.isSome = true) :=
  ⟨by decide,
   reachable_factorized_implies_analyzed
     [Op.analyze 1 [0, 1] [0] (some ⟨0, 1⟩), Op.factorize [5] (some ⟨7⟩) 2]
     (by decide)⟩

end AkingSPICE
